import Mathlib

/-!
Verification development for the Spotify-clone REST backend
(Express + Prisma, TypeScript).  The controllers and validators of the
repository are shallowly embedded as executable Lean functions over an
explicit relational state (`DB`), and the behavioural properties of the
specification are proved or refuted against this embedding.

Sections:
* JavaScript primitive semantics (`parseInt`, `trim`, truthiness, the
  quote-stripping regex replace),
* the relational data model (`prisma/migrations`, file `part_000`),
* the request handlers (`playlist.controller.ts`, `song.controller.ts`,
  `album.controller.ts`, the user controller, `query.dto.ts`, the common
  DTO helpers),
* theorems for the behavioural claims.
-/

namespace SpotifyClone

/-! ## JavaScript primitive semantics -/

/-- The double-quote character (code point 34). -/
def dquote : Char := Char.ofNat 34

/-- The single-quote character (code point 39). -/
def squote : Char := Char.ofNat 39

/-- ECMAScript `StrWhiteSpaceChar` (restricted to the code points that can
realistically reach this backend: ASCII whitespace and NBSP). -/
def jsIsWhitespace (c : Char) : Bool :=
  c == ' ' || c == Char.ofNat 9 || c == Char.ofNat 10 || c == Char.ofNat 13 ||
  c == Char.ofNat 11 || c == Char.ofNat 12 || c == Char.ofNat 160

/-- JavaScript `String.prototype.trim`: drop whitespace from both ends. -/
def jsTrim (s : String) : String :=
  String.mk (((s.data.dropWhile jsIsWhitespace).reverse.dropWhile jsIsWhitespace).reverse)

/-- Value of a list of decimal digit characters, most significant first. -/
def digitsToNat (ds : List Char) : Nat :=
  ds.foldl (fun acc c => acc * 10 + (c.toNat - 48)) 0

/-- JavaScript `parseInt(s, 10)`: skip leading whitespace, read an optional
sign, then the longest prefix of decimal digits; `none` models `NaN`. -/
def jsParseInt (s : String) : Option Int :=
  match s.data.dropWhile jsIsWhitespace with
  | [] => none
  | c :: rest =>
    if c == '-' then
      let ds := rest.takeWhile Char.isDigit
      if ds.isEmpty then none else some (-(Int.ofNat (digitsToNat ds)))
    else if c == '+' then
      let ds := rest.takeWhile Char.isDigit
      if ds.isEmpty then none else some (Int.ofNat (digitsToNat ds))
    else
      let ds := (c :: rest).takeWhile Char.isDigit
      if ds.isEmpty then none else some (Int.ofNat (digitsToNat ds))

/-- One step of the regex replace `/^["']|["']$/g`: drop a single leading
quote character if present. -/
def dropLeadingQuote (cs : List Char) : List Char :=
  match cs with
  | [] => []
  | c :: rest => if c == dquote || c == squote then rest else c :: rest

/-- JavaScript `s.replace(/^["']|["']$/g, "")`: remove one leading and one
trailing double- or single-quote character. -/
def stripQuotes (s : String) : String :=
  String.mk ((dropLeadingQuote (dropLeadingQuote s.data).reverse).reverse)

/-- Untyped JSON/JavaScript value as it arrives in a request body field;
`undef` is an absent field. -/
inductive JsValue where
  | undef
  | null
  | str (s : String)
  | bool (b : Bool)
  | num (n : Int)
deriving DecidableEq, Repr

/-- JavaScript truthiness of a body field. -/
def JsValue.truthy : JsValue → Bool
  | .undef => false
  | .null => false
  | .str s => !(s == "")
  | .bool b => b
  | .num n => !(n == 0)

example : jsParseInt "500" = some 500 := by decide
example : jsParseInt "7abc" = some 7 := by decide
example : jsParseInt "+7" = some 7 := by decide
example : jsParseInt " 7" = some 7 := by decide
example : jsParseInt "-5" = some (-5) := by decide
example : jsParseInt "abc" = none := by decide
example : jsParseInt "" = none := by decide
example : jsParseInt "0x10" = some 0 := by decide
example : jsTrim "  a b  " = "a b" := by decide
example : stripQuotes (String.mk [squote, 'a', squote]) = "a" := by decide
example : stripQuotes (String.mk [dquote, dquote]) = "" := by decide
example : stripQuotes (String.mk [squote]) = "" := by decide

/-! ## Data model (relational schema, migration file `part_000`)

Timestamp and date columns (`created_at`, `updated_at`, `release_date`,
`dob`) and counters no claim touches (`track_like`, artist rows) are
omitted from the row types; every column a claim's handler reads or
writes is present. -/

/-- Row of table `songs`. -/
structure Song where
  id : Int
  title : String
  artistId : Int
  albumId : Option Int
  duration : Int
  genre : Option String
  lyric : Option String
  audioUrl : String
  coverImage : Option String
  isExplicit : Bool
  playCount : Int
  likeCount : Int
deriving DecidableEq, Repr

/-- Row of table `albums`. -/
structure Album where
  id : Int
  title : String
  artistId : Int
  genre : Option String
  description : Option String
  coverImage : Option String
  isExplicit : Bool
deriving DecidableEq, Repr

/-- Row of table `playlists` (`follower_count` is the denormalized counter). -/
structure Playlist where
  id : Int
  name : String
  description : Option String
  isPublic : Bool
  coverImage : Option String
  followerCount : Int
  creatorId : Int
deriving DecidableEq, Repr

/-- Row of table `users`; `is_admin` has schema default `false`
(`part_000` line 11). -/
structure UserRow where
  id : Int
  email : String
  password : String
  username : Option String
  fullName : Option String
  isAdmin : Bool
deriving DecidableEq, Repr

/-- The relational store.  Join tables hold `(userId, playlistId)` pairs
(`users_follow_playlist`, `users_collaborate_playlist`) or
`(songId, playlistId)` pairs (`songs_playlists`); each has a unique
constraint on the pair. -/
structure DB where
  users : List UserRow
  songs : List Song
  albums : List Album
  playlists : List Playlist
  usersFollowPlaylist : List (Int × Int)
  usersCollaboratePlaylist : List (Int × Int)
  songsPlaylists : List (Int × Int)
  nextUserId : Int
deriving DecidableEq, Repr

/-- `prisma.playlist.findUnique({ where: { id } })`. -/
def findPlaylist (db : DB) (pid : Int) : Option Playlist :=
  db.playlists.find? (fun p => p.id == pid)

/-- `prisma.album.findUnique({ where: { id } })`. -/
def findAlbum (db : DB) (aid : Int) : Option Album :=
  db.albums.find? (fun a => a.id == aid)

/-- The `followerCount: { increment / decrement }` update of
`prisma.playlist.update` on playlist `pid` (`delta` is `1` or `-1`). -/
def bumpFollower (pid delta : Int) (l : List Playlist) : List Playlist :=
  l.map (fun p => if p.id == pid then { p with followerCount := p.followerCount + delta } else p)

/-! ## Follow / unfollow (playlist.controller.ts lines 733-906) -/

/-- `followPlaylist`: parse the id path parameter (400 on failure), look the
playlist up (404), reject a double follow (400), else atomically insert the
join row and increment the counter, answering 200. -/
def followPlaylist (userId : Int) (rawId : String) (db : DB) : Nat × DB :=
  match jsParseInt rawId with
  | none => (400, db)
  | some pid =>
    if pid ≤ 0 then (400, db)
    else
      match findPlaylist db pid with
      | none => (404, db)
      | some _ =>
        if db.usersFollowPlaylist.contains (userId, pid) then (400, db)
        else
          (200, { db with
            usersFollowPlaylist := (userId, pid) :: db.usersFollowPlaylist,
            playlists := bumpFollower pid 1 db.playlists })

/-- `unfollowPlaylist`: parse the id (400), look the playlist up (404),
reject when no follow row exists (400), else atomically delete the unique
join row and decrement the counter, answering 200. -/
def unfollowPlaylist (userId : Int) (rawId : String) (db : DB) : Nat × DB :=
  match jsParseInt rawId with
  | none => (400, db)
  | some pid =>
    if pid ≤ 0 then (400, db)
    else
      match findPlaylist db pid with
      | none => (404, db)
      | some _ =>
        if db.usersFollowPlaylist.contains (userId, pid) then
          (200, { db with
            usersFollowPlaylist := db.usersFollowPlaylist.erase (userId, pid),
            playlists := bumpFollower pid (-1) db.playlists })
        else (400, db)

lemma find?_bumpFollower (pid d : Int) (l : List Playlist) :
    (bumpFollower pid d l).find? (fun p => p.id == pid)
      = (l.find? (fun p => p.id == pid)).map
          (fun p => { p with followerCount := p.followerCount + d }) := by
  induction l with
  | nil => rfl
  | cons q l ih =>
    by_cases h : q.id == pid
    · simp [bumpFollower, List.find?, h]
    · simp only [bumpFollower, List.map_cons, List.find?, h, if_neg, Bool.false_eq_true,
        ite_false] at ih ⊢
      simpa [h] using ih

lemma bumpFollower_cancel (pid : Int) (l : List Playlist) :
    bumpFollower pid (-1) (bumpFollower pid 1 l) = l := by
  unfold bumpFollower
  rw [List.map_map]
  have hpt : ∀ p ∈ l,
      ((fun p => if p.id == pid then { p with followerCount := p.followerCount + (-1) } else p) ∘
        (fun p => if p.id == pid then { p with followerCount := p.followerCount + 1 } else p)) p
        = p := by
    intro p _
    by_cases h : p.id == pid
    · have harith : p.followerCount + 1 + -1 = p.followerCount := by omega
      simp [Function.comp, h, harith]
    · simp [Function.comp, h]
  rw [List.map_congr_left hpt]
  exact List.map_id l

/-- C1: for a playlist that exists under the parsed id and an authenticated
user who is not currently following it, `followPlaylist` succeeds and a
subsequent `unfollowPlaylist` succeeds and restores the entire store —
in particular the playlist's `followerCount` and the
`users_follow_playlist` join rows are exactly as before the follow. -/
theorem follow_then_unfollow_restores_state
    (userId pid : Int) (rawId : String) (db : DB) (pl : Playlist)
    (hparse : jsParseInt rawId = some pid) (hpos : 0 < pid)
    (hfind : findPlaylist db pid = some pl)
    (hnot : db.usersFollowPlaylist.contains (userId, pid) = false) :
    (followPlaylist userId rawId db).1 = 200 ∧
    unfollowPlaylist userId rawId (followPlaylist userId rawId db).2 = (200, db) := by
  have hle : ¬ pid ≤ 0 := by omega
  have hstep : followPlaylist userId rawId db
      = (200, { db with
          usersFollowPlaylist := (userId, pid) :: db.usersFollowPlaylist,
          playlists := bumpFollower pid 1 db.playlists }) := by
    have hnot' : (userId, pid) ∉ db.usersFollowPlaylist := by simpa using hnot
    simp [followPlaylist, hparse, hfind, hnot', hle]
  refine ⟨by rw [hstep], ?_⟩
  rw [hstep]
  have hfind' : db.playlists.find? (fun p => p.id == pid) = some pl := hfind
  have hfind2 : findPlaylist
      { db with
        usersFollowPlaylist := (userId, pid) :: db.usersFollowPlaylist,
        playlists := bumpFollower pid 1 db.playlists } pid
      = some { pl with followerCount := pl.followerCount + 1 } := by
    show (bumpFollower pid 1 db.playlists).find? (fun p => p.id == pid) = _
    rw [find?_bumpFollower, hfind']
    rfl
  simp only [unfollowPlaylist, hparse, hfind2, hle, ite_false, if_neg hle]
  have hcontains : ((userId, pid) :: db.usersFollowPlaylist).contains (userId, pid) = true := by
    simp
  simp only [hcontains, ite_true, if_pos]
  rw [show ((userId, pid) :: db.usersFollowPlaylist).erase (userId, pid)
        = db.usersFollowPlaylist from by simp [List.erase_cons_head]]
  rw [show bumpFollower pid (-1) (bumpFollower pid 1 db.playlists) = db.playlists from
        bumpFollower_cancel pid db.playlists]

/-- C2: a double follow is rejected with 400 and changes nothing, and a
double unfollow (unfollow while not following) is rejected with 400 and
changes nothing. -/
theorem double_follow_and_double_unfollow_rejected
    (userId pid : Int) (rawId : String) (db : DB) (pl : Playlist)
    (hparse : jsParseInt rawId = some pid) (hpos : 0 < pid)
    (hfind : findPlaylist db pid = some pl) :
    (db.usersFollowPlaylist.contains (userId, pid) = true →
      followPlaylist userId rawId db = (400, db)) ∧
    (db.usersFollowPlaylist.contains (userId, pid) = false →
      unfollowPlaylist userId rawId db = (400, db)) := by
  have hle : ¬ pid ≤ 0 := by omega
  constructor
  · intro hmem
    have hmem' : (userId, pid) ∈ db.usersFollowPlaylist := by simpa using hmem
    simp [followPlaylist, hparse, hfind, hle, hmem']
  · intro hmem
    have hmem' : (userId, pid) ∉ db.usersFollowPlaylist := by simpa using hmem
    simp [unfollowPlaylist, hparse, hfind, hle, hmem']

/-- A one-playlist store used to instantiate the follow/unfollow theorems. -/
def followDB : DB :=
  { users := [], songs := [], albums := [],
    playlists := [{ id := 1, name := "mix", description := none, isPublic := true,
                    coverImage := none, followerCount := 0, creatorId := 9 }],
    usersFollowPlaylist := [], usersCollaboratePlaylist := [],
    songsPlaylists := [], nextUserId := 1 }

theorem follow_then_unfollow_restores_state_witness :
    (followPlaylist 5 "1" followDB).1 = 200 ∧
    unfollowPlaylist 5 "1" (followPlaylist 5 "1" followDB).2 = (200, followDB) :=
  follow_then_unfollow_restores_state 5 1 "1" followDB
    { id := 1, name := "mix", description := none, isPublic := true,
      coverImage := none, followerCount := 0, creatorId := 9 }
    (by decide) (by decide) (by decide) (by decide)

/-- A store in which user 5 already follows playlist 1 and user 6 does not. -/
def followDB2 : DB :=
  { followDB with
    playlists := [{ id := 1, name := "mix", description := none, isPublic := true,
                    coverImage := none, followerCount := 1, creatorId := 9 }],
    usersFollowPlaylist := [(5, 1)] }

theorem double_follow_and_double_unfollow_rejected_witness :
    followPlaylist 5 "1" followDB2 = (400, followDB2) ∧
    unfollowPlaylist 6 "1" followDB2 = (400, followDB2) :=
  ⟨(double_follow_and_double_unfollow_rejected 5 1 "1" followDB2
      { id := 1, name := "mix", description := none, isPublic := true,
        coverImage := none, followerCount := 1, creatorId := 9 }
      (by decide) (by decide) (by decide)).1 (by decide),
   (double_follow_and_double_unfollow_rejected 6 1 "1" followDB2
      { id := 1, name := "mix", description := none, isPublic := true,
        coverImage := none, followerCount := 1, creatorId := 9 }
      (by decide) (by decide) (by decide)).2 (by decide)⟩

/-! ## Pagination limit (song.controller.ts lines 9-11 and 71-81,
query.dto.ts lines 43-58) -/

/-- `DEFAULT_LIMIT` (song.controller.ts line 10, query.dto.ts line 2). -/
def DEFAULT_LIMIT : Int := 10

/-- `MAX_LIMIT` (song.controller.ts line 11, query.dto.ts line 3). -/
def MAX_LIMIT : Int := 100

/-- The limit computation of `getTopSongs` (song.controller.ts lines 73-81):
`req.query.limit` is `none` when absent (or not a string); the empty string
is falsy and also keeps the default. -/
def getTopSongsLimit (rawLimit : Option String) : Int :=
  match rawLimit with
  | none => DEFAULT_LIMIT
  | some s =>
    if s == "" then DEFAULT_LIMIT
    else
      match jsParseInt s with
      | none => DEFAULT_LIMIT
      | some n => if 0 < n then min n MAX_LIMIT else DEFAULT_LIMIT

/-- `validateLimit` (query.dto.ts lines 43-58), with the default arguments
passed explicitly. -/
def validateLimit (rawLimit : Option String) (defaultLimit maxLimit : Int) : Int :=
  match rawLimit with
  | none => defaultLimit
  | some s =>
    if s == "" then defaultLimit
    else
      match jsParseInt s with
      | none => defaultLimit
      | some n => if n ≤ 0 then defaultLimit else min n maxLimit

/-- C6: `getTopSongs` uses `min(parsed, 100)` when the limit string parses
to a positive integer and the default 10 when the parameter is absent,
non-numeric, zero, or negative; `validateLimit` with the default arguments
computes the same limit. -/
theorem getTopSongsLimit_cap_and_default :
    (∀ s n, jsParseInt s = some n → 0 < n → getTopSongsLimit (some s) = min n 100) ∧
    getTopSongsLimit none = 10 ∧
    (∀ s, jsParseInt s = none → getTopSongsLimit (some s) = 10) ∧
    (∀ s n, jsParseInt s = some n → n ≤ 0 → getTopSongsLimit (some s) = 10) ∧
    (∀ raw, validateLimit raw DEFAULT_LIMIT MAX_LIMIT = getTopSongsLimit raw) := by
  refine ⟨?_, rfl, ?_, ?_, ?_⟩
  · intro s n hparse hpos
    have hne : ¬ (s == "") = true := by
      intro h
      rw [show s = "" from by simpa using h] at hparse
      simp [jsParseInt] at hparse
    simp [getTopSongsLimit, hparse, hpos, hne, MAX_LIMIT]
  · intro s hparse
    by_cases h : (s == "") = true <;> simp [getTopSongsLimit, hparse, h, DEFAULT_LIMIT]
  · intro s n hparse hneg
    have hlt : ¬ 0 < n := by omega
    by_cases h : (s == "") = true <;>
      simp [getTopSongsLimit, hparse, h, hlt, DEFAULT_LIMIT]
  · intro raw
    match raw with
    | none => rfl
    | some s =>
      by_cases h : (s == "") = true
      · simp [getTopSongsLimit, validateLimit, h, DEFAULT_LIMIT]
      · cases hp : jsParseInt s with
        | none => simp [getTopSongsLimit, validateLimit, h, hp, DEFAULT_LIMIT]
        | some n =>
          by_cases hpos : 0 < n
          · have : ¬ n ≤ 0 := by omega
            simp [getTopSongsLimit, validateLimit, h, hp, hpos, this]
          · have : n ≤ 0 := by omega
            simp [getTopSongsLimit, validateLimit, h, hp, hpos, this]

theorem getTopSongsLimit_cap_and_default_witness :
    getTopSongsLimit (some "500") = 100 ∧ getTopSongsLimit (some "0") = 10 ∧
    getTopSongsLimit (some "abc") = 10 ∧ getTopSongsLimit none = 10 :=
  ⟨by
    have h := getTopSongsLimit_cap_and_default.1 "500" 500 (by decide) (by decide)
    simpa using h,
   getTopSongsLimit_cap_and_default.2.2.2.1 "0" 0 (by decide) (by decide),
   getTopSongsLimit_cap_and_default.2.2.1 "abc" (by decide),
   getTopSongsLimit_cap_and_default.2.1⟩

/-! ## Id path parameters (query.dto.ts lines 132-138,
song.controller.ts lines 163-201) -/

/-- `validateId` (query.dto.ts lines 132-138): `none` models the thrown
"Invalid id" error, surfaced as a 400. -/
def validateId (rawId : String) : Option Int :=
  match jsParseInt rawId with
  | none => none
  | some n => if n ≤ 0 then none else some n

/-- `getSongById` (song.controller.ts lines 163-201): status code and the
song the handler operates on. -/
def getSongById (rawId : String) (db : DB) : Nat × Option Song :=
  match jsParseInt rawId with
  | none => (400, none)
  | some n =>
    if n ≤ 0 then (400, none)
    else
      match db.songs.find? (fun s => s.id == n) with
      | none => (404, none)
      | some song => (200, some song)

/-- The acceptance condition stated by the claim C10: the raw id string
literally begins with the decimal digits of a positive integer. -/
def claimLeadingPosIntPrefix (s : String) : Bool :=
  let ds := s.data.takeWhile Char.isDigit
  !ds.isEmpty && decide (0 < digitsToNat ds)

lemma ws_not_digit (c : Char) (h : jsIsWhitespace c = true) : c.isDigit = false := by
  simp [jsIsWhitespace] at h
  rcases h with (((((h | h) | h) | h) | h) | h) | h <;> subst h <;> decide

lemma digit_not_ws (c : Char) (h : c.isDigit = true) : jsIsWhitespace c = false := by
  cases hw : jsIsWhitespace c
  · rfl
  · rw [ws_not_digit c hw] at h
    cases h

lemma digit_ne_minus (c : Char) (h : c.isDigit = true) : (c == '-') = false := by
  cases hm : c == '-'
  · rfl
  · rw [show c = '-' from by simpa using hm] at h
    cases h

lemma digit_ne_plus (c : Char) (h : c.isDigit = true) : (c == '+') = false := by
  cases hm : c == '+'
  · rfl
  · rw [show c = '+' from by simpa using hm] at h
    cases h

lemma takeWhile_digits_append (ds t : List Char)
    (hds : ∀ c ∈ ds, c.isDigit = true)
    (ht : ∀ c, t.head? = some c → c.isDigit = false) :
    (ds ++ t).takeWhile Char.isDigit = ds := by
  induction ds with
  | nil =>
    cases t with
    | nil => rfl
    | cons c t => simp [List.takeWhile, ht c rfl]
  | cons d ds ih =>
    have hd : d.isDigit = true := hds d (by simp)
    simp only [List.cons_append, List.takeWhile, hd]
    exact congrArg (d :: ·) (ih (fun c hc => hds c (by simp [hc])))

lemma jsParseInt_digits_prefix (ds t : List Char) (hne : ds ≠ [])
    (hds : ∀ c ∈ ds, c.isDigit = true)
    (ht : ∀ c, t.head? = some c → c.isDigit = false) :
    jsParseInt (String.mk (ds ++ t)) = some (Int.ofNat (digitsToNat ds)) := by
  obtain ⟨d, ds', rfl⟩ : ∃ d ds', ds = d :: ds' := by
    cases ds with
    | nil => exact absurd rfl hne
    | cons d ds' => exact ⟨d, ds', rfl⟩
  have hd : d.isDigit = true := hds d (by simp)
  have hdrop : (d :: ds' ++ t).dropWhile jsIsWhitespace = d :: (ds' ++ t) := by
    simp [List.dropWhile, digit_not_ws d hd]
  have htake : (d :: (ds' ++ t)).takeWhile Char.isDigit = d :: ds' := by
    rw [show d :: (ds' ++ t) = (d :: ds') ++ t from rfl]
    exact takeWhile_digits_append (d :: ds') t hds ht
  show jsParseInt ⟨d :: ds' ++ t⟩ = _
  unfold jsParseInt
  simp only [String.data] at hdrop ⊢
  rw [hdrop]
  simp only [digit_ne_minus d hd, digit_ne_plus d hd, Bool.false_eq_true, if_false, htake]
  simp

/-- C10 counterexample: `parseInt` also accepts a leading `'+'` sign (and
leading whitespace), so the raw id `"+7"` is accepted and resolves to
entity 7 even though it does not begin with a decimal digit — the claim's
"400 exactly when the string has no leading positive-integer prefix" is
false at this input. -/
theorem validateId_strict_iff_counterexample :
    claimLeadingPosIntPrefix "+7" = false ∧ validateId "+7" = some 7 ∧
    validateId " 7" = some 7 ∧ claimLeadingPosIntPrefix " 7" = false := by
  refine ⟨by decide, by decide, by decide, by decide⟩

/-- C10 amended: id parsing is lenient. A raw id consisting of decimal
digits with positive value followed by any non-digit tail is accepted and
yields the value of the digit prefix; a 400 occurs exactly when
`parseInt` (which skips leading whitespace and allows a sign) yields `NaN`
or a non-positive value; `getSongById` answers 400 exactly on those raw
ids and otherwise operates on the entity whose id is the parsed value. -/
theorem validateId_lenient_amended :
    (∀ ds t, ds ≠ [] → (∀ c ∈ ds, c.isDigit = true) → 0 < digitsToNat ds →
      (∀ c, t.head? = some c → c.isDigit = false) →
      validateId (String.mk (ds ++ t)) = some (Int.ofNat (digitsToNat ds))) ∧
    (∀ s, validateId s = none ↔
      (jsParseInt s = none ∨ ∃ n, jsParseInt s = some n ∧ n ≤ 0)) ∧
    (∀ s db, (getSongById s db).1 = 400 ↔ validateId s = none) ∧
    (∀ s n db song, validateId s = some n → (getSongById s db).2 = some song →
      song.id = n) := by
  refine ⟨?_, ?_, ?_, ?_⟩
  · intro ds t hne hds hpos ht
    have hparse := jsParseInt_digits_prefix ds t hne hds ht
    simp only [validateId, hparse]
    rw [if_neg (show ¬ Int.ofNat (digitsToNat ds) ≤ 0 by
      rw [Int.ofNat_eq_coe]
      omega)]
  · intro s
    cases hp : jsParseInt s with
    | none => simp [validateId, hp]
    | some n =>
      by_cases hle : n ≤ 0
      · simp [validateId, hp, hle]
      · simp [validateId, hp, hle]
  · intro s db
    cases hp : jsParseInt s with
    | none => simp [getSongById, validateId, hp]
    | some n =>
      by_cases hle : n ≤ 0
      · simp [getSongById, validateId, hp, hle]
      · cases hf : db.songs.find? (fun s => s.id == n) with
        | none => simp [getSongById, validateId, hp, hle, hf]
        | some song => simp [getSongById, validateId, hp, hle, hf]
  · intro s n db song hv hs
    cases hp : jsParseInt s with
    | none => simp [validateId, hp] at hv
    | some m =>
      by_cases hle : m ≤ 0
      · simp [validateId, hp, hle] at hv
      · simp only [validateId, hp, hle, if_neg hle] at hv
        cases hf : db.songs.find? (fun s => s.id == m) with
        | none => simp [getSongById, hp, hle, hf] at hs
        | some song' =>
          simp [getSongById, hp, hle, hf] at hs
          have hid := List.find?_some hf
          simp only [beq_iff_eq] at hid
          have hsong : song' = song := hs
          subst hsong
          have hn : m = n := by simpa using hv
          subst hn
          exact hid

/-- A one-song store used to instantiate the lenient id-parsing theorem. -/
def songDB : DB :=
  { users := [], albums := [], playlists := [],
    songs := [{ id := 7, title := "t", artistId := 1, albumId := none, duration := 60,
                genre := none, lyric := none, audioUrl := "u", coverImage := none,
                isExplicit := false, playCount := 0, likeCount := 0 }],
    usersFollowPlaylist := [], usersCollaboratePlaylist := [],
    songsPlaylists := [], nextUserId := 1 }

theorem validateId_lenient_amended_witness :
    validateId "7abc" = some 7 ∧ (getSongById "7abc" songDB).1 = 200 ∧
    validateId "abc" = none := by
  refine ⟨?_, by decide, (validateId_lenient_amended.2.1 "abc").mpr (by decide)⟩
  have h := validateId_lenient_amended.1 ['7'] ['a', 'b', 'c']
    (by decide) (by decide) (by decide) (by decide)
  simpa using h

/-! ## Batch song-id parsing and idempotent insertion -/

/-- One iteration of the id loop: `parseInt(String(songId), 10)` rejected
when `NaN` or non-positive (playlist.controller.ts lines 500-507,
album.controller.ts lines 540-548). -/
def parsePositiveId (s : String) : Option Int :=
  match jsParseInt s with
  | none => none
  | some n => if n ≤ 0 then none else some n

/-- The whole id loop: the handler throws (400) at the first bad id. -/
def parseSongIds : List String → Option (List Int)
  | [] => some []
  | s :: rest =>
    match parsePositiveId s, parseSongIds rest with
    | some n, some l => some (n :: l)
    | _, _ => none

/-- `prisma.songsPlaylists.createMany({ data, skipDuplicates: true })`:
insert each row unless an equal row is already present (`ON CONFLICT DO
NOTHING`), which also drops duplicates inside the batch. -/
def insertManySkipDup (rows : List (Int × Int)) (table : List (Int × Int)) :
    List (Int × Int) :=
  rows.foldl (fun t r => if t.contains r then t else t ++ [r]) table

lemma mem_insertManySkipDup (rows : List (Int × Int)) (table : List (Int × Int))
    (r : Int × Int) :
    r ∈ insertManySkipDup rows table ↔ r ∈ table ∨ r ∈ rows := by
  induction rows generalizing table with
  | nil => simp [insertManySkipDup]
  | cons a rows ih =>
    show r ∈ insertManySkipDup rows (if table.contains a then table else table ++ [a]) ↔ _
    by_cases h : table.contains a
    · have ha : a ∈ table := by simpa using h
      rw [if_pos h, ih]
      constructor
      · rintro (hr | hr)
        · exact Or.inl hr
        · exact Or.inr (List.mem_cons_of_mem a hr)
      · rintro (hr | hr)
        · exact Or.inl hr
        · rcases List.mem_cons.mp hr with rfl | hr
          · exact Or.inl ha
          · exact Or.inr hr
    · rw [if_neg h, ih]
      simp only [List.mem_append, List.mem_singleton, List.mem_cons]
      tauto

lemma insertManySkipDup_nodup (rows : List (Int × Int)) (table : List (Int × Int))
    (h : table.Nodup) : (insertManySkipDup rows table).Nodup := by
  induction rows generalizing table with
  | nil => exact h
  | cons a rows ih =>
    show (insertManySkipDup rows (if table.contains a then table else table ++ [a])).Nodup
    by_cases hc : table.contains a
    · rw [if_pos hc]
      exact ih table h
    · rw [if_neg hc]
      refine ih (table ++ [a]) ?_
      have ha : a ∉ table := by simpa using hc
      simp [List.nodup_append, h, ha]

lemma insertManySkipDup_of_subset (rows : List (Int × Int)) (table : List (Int × Int))
    (h : ∀ r ∈ rows, r ∈ table) : insertManySkipDup rows table = table := by
  induction rows generalizing table with
  | nil => rfl
  | cons a rows ih =>
    show insertManySkipDup rows (if table.contains a then table else table ++ [a]) = table
    have hc : table.contains a = true := by
      simpa using h a (List.mem_cons_self a rows)
    rw [if_pos hc]
    exact ih table (fun r hr => h r (List.mem_cons_of_mem a hr))

lemma insertManySkipDup_idem (rows : List (Int × Int)) (table : List (Int × Int)) :
    insertManySkipDup rows (insertManySkipDup rows table) = insertManySkipDup rows table :=
  insertManySkipDup_of_subset rows _
    (fun r hr => (mem_insertManySkipDup rows table r).mpr (Or.inr hr))

/-- `prisma.song.findMany({ where: { id: { in: ids } } })` returns each
matching row once, in table order. -/
def findSongsByIds (db : DB) (ids : List Int) : List Song :=
  db.songs.filter (fun s => ids.contains s.id)

/-- Bulk existence check: when the stored song ids are unique, the listed
ids are pairwise distinct, and each listed id exists, `findMany` returns
exactly as many rows as ids were listed. -/
lemma findSongsByIds_length (db : DB) (ids : List Int)
    (hsong : (db.songs.map Song.id).Nodup) (hids : ids.Nodup)
    (hex : ∀ i ∈ ids, ∃ s ∈ db.songs, s.id = i) :
    (findSongsByIds db ids).length = ids.length := by
  have hperm : ((findSongsByIds db ids).map Song.id).Perm ids := by
    rw [List.perm_ext_iff_of_nodup ?_ hids]
    · intro a
      constructor
      · intro ha
        rcases List.mem_map.mp ha with ⟨s, hs, rfl⟩
        have := List.of_mem_filter hs
        simpa using this
      · intro ha
        rcases hex a ha with ⟨s, hs, rfl⟩
        exact List.mem_map.mpr ⟨s, List.mem_filter.mpr ⟨hs, by simpa using ha⟩, rfl⟩
    · exact hsong.sublist (List.Sublist.map Song.id (List.filter_sublist db.songs))
  have := hperm.length_eq
  simpa using this

/-! ## addSongsToPlaylist (playlist.controller.ts lines 446-589) -/

/-- `addSongsToPlaylist`: `body` is `req.body.songIds` — `none` when absent
or not an array, otherwise the `String(...)` images of its elements.  The
checks run in source order: id parse (400), playlist lookup (404),
creator-or-collaborator authorization (403), non-empty array (400), per-id
parse (400), bulk existence (404), then `createMany` with
`skipDuplicates`. -/
def addSongsToPlaylist (userId : Int) (rawId : String) (body : Option (List String))
    (db : DB) : Nat × DB :=
  match jsParseInt rawId with
  | none => (400, db)
  | some pid =>
    if pid ≤ 0 then (400, db)
    else
      match findPlaylist db pid with
      | none => (404, db)
      | some pl =>
        if !(pl.creatorId == userId) && !(db.usersCollaboratePlaylist.contains (userId, pid))
        then (403, db)
        else
          match body with
          | none => (400, db)
          | some songIds =>
            if songIds.isEmpty then (400, db)
            else
              match parseSongIds songIds with
              | none => (400, db)
              | some ids =>
                if (findSongsByIds db ids).length ≠ ids.length then (404, db)
                else
                  (200, { db with songsPlaylists :=
                    insertManySkipDup (ids.map (fun sid => (sid, pid))) db.songsPlaylists })

/-- C5: an authenticated user who is neither the playlist's creator nor one
of its collaborators gets a 403 from `addSongsToPlaylist` and the store —
in particular the playlist's song membership — is unchanged, whatever the
request body. -/
theorem addSongsToPlaylist_forbidden_for_strangers
    (userId pid : Int) (rawId : String) (db : DB) (pl : Playlist)
    (body : Option (List String))
    (hparse : jsParseInt rawId = some pid) (hpos : 0 < pid)
    (hfind : findPlaylist db pid = some pl)
    (hcreator : (pl.creatorId == userId) = false)
    (hcollab : db.usersCollaboratePlaylist.contains (userId, pid) = false) :
    addSongsToPlaylist userId rawId body db = (403, db) := by
  have hle : ¬ pid ≤ 0 := by omega
  have hcollab' : (userId, pid) ∉ db.usersCollaboratePlaylist := by simpa using hcollab
  simp [addSongsToPlaylist, hparse, hle, hfind, hcreator, hcollab, hcollab']

theorem addSongsToPlaylist_forbidden_for_strangers_witness :
    addSongsToPlaylist 6 "1" (some ["1"]) followDB = (403, followDB) :=
  addSongsToPlaylist_forbidden_for_strangers 6 1 "1" followDB
    { id := 1, name := "mix", description := none, isPublic := true,
      coverImage := none, followerCount := 0, creatorId := 9 }
    (some ["1"]) (by decide) (by decide) (by decide) (by decide) (by decide)

lemma addSongsToPlaylist_success_run
    (userId pid : Int) (rawId : String) (db : DB) (pl : Playlist)
    (songIds : List String) (ids : List Int)
    (hparse : jsParseInt rawId = some pid) (hpos : 0 < pid)
    (hfind : findPlaylist db pid = some pl)
    (hauth : ((pl.creatorId == userId) ||
      db.usersCollaboratePlaylist.contains (userId, pid)) = true)
    (hne : songIds ≠ [])
    (hids : parseSongIds songIds = some ids)
    (hlen : (findSongsByIds db ids).length = ids.length) :
    addSongsToPlaylist userId rawId (some songIds) db
      = (200, { db with songsPlaylists :=
          insertManySkipDup (ids.map (fun sid => (sid, pid))) db.songsPlaylists }) := by
  have hle : ¬ pid ≤ 0 := by omega
  have hcond : (!(pl.creatorId == userId) &&
      !(db.usersCollaboratePlaylist.contains (userId, pid))) = false := by
    cases h1 : pl.creatorId == userId <;>
      cases h2 : db.usersCollaboratePlaylist.contains (userId, pid) <;>
      simp_all
  simp only [addSongsToPlaylist, hparse, hle, hfind, hcond, hne, hids, hlen]
  simp [hne, hlen]

/-- A store with two songs (ids 1 and 2, both by artist 1) and one playlist
(id 1, creator 5) that already contains song 1. -/
def songPlaylistDB : DB :=
  { users := [], albums := [],
    songs := [{ id := 1, title := "a", artistId := 1, albumId := none, duration := 10,
                genre := none, lyric := none, audioUrl := "u1", coverImage := none,
                isExplicit := false, playCount := 0, likeCount := 0 },
              { id := 2, title := "b", artistId := 1, albumId := none, duration := 20,
                genre := none, lyric := none, audioUrl := "u2", coverImage := none,
                isExplicit := false, playCount := 0, likeCount := 0 }],
    playlists := [{ id := 1, name := "mix", description := none, isPublic := true,
                    coverImage := none, followerCount := 0, creatorId := 5 }],
    usersFollowPlaylist := [], usersCollaboratePlaylist := [],
    songsPlaylists := [(1, 1)], nextUserId := 1 }

/-- C7 counterexample: the claim quantifies over every list of existing
song ids, but a list naming an existing song twice makes the bulk
existence check fail (`findMany` deduplicates, so 1 row ≠ 2 ids) and the
whole call is rejected with 404 instead of succeeding — even though the
caller is the creator and every listed song exists. -/
theorem addSongsToPlaylist_duplicate_ids_counterexample :
    (∀ i ∈ ["2", "2"], parsePositiveId i = some 2) ∧
    (∃ s ∈ songPlaylistDB.songs, s.id = 2) ∧
    (∃ p ∈ songPlaylistDB.playlists, p.id = 1 ∧ p.creatorId = 5) ∧
    addSongsToPlaylist 5 "1" (some ["2", "2"]) songPlaylistDB = (404, songPlaylistDB) ∧
    (2, 1) ∉ songPlaylistDB.songsPlaylists := by
  refine ⟨by decide, by decide, by decide, by decide, by decide⟩

/-- C7 amended: for pairwise-distinct existing song ids (and a store whose
song ids are unique), `addSongsToPlaylist` by the creator or a collaborator
succeeds even when some listed songs are already members; the resulting
membership is the old membership united with the `(songId, playlistId)`
rows for the listed ids, no duplicate membership row is created, and
running the identical call a second time returns 200 and leaves the store
unchanged. -/
theorem addSongsToPlaylist_idempotent_union
    (userId pid : Int) (rawId : String) (db : DB) (pl : Playlist)
    (songIds : List String) (ids : List Int)
    (hparse : jsParseInt rawId = some pid) (hpos : 0 < pid)
    (hfind : findPlaylist db pid = some pl)
    (hauth : ((pl.creatorId == userId) ||
      db.usersCollaboratePlaylist.contains (userId, pid)) = true)
    (hne : songIds ≠ [])
    (hids : parseSongIds songIds = some ids)
    (hnodup : ids.Nodup)
    (hsong : (db.songs.map Song.id).Nodup)
    (hex : ∀ i ∈ ids, ∃ s ∈ db.songs, s.id = i) :
    (addSongsToPlaylist userId rawId (some songIds) db).1 = 200 ∧
    (∀ r, r ∈ (addSongsToPlaylist userId rawId (some songIds) db).2.songsPlaylists ↔
      r ∈ db.songsPlaylists ∨ ∃ i ∈ ids, r = (i, pid)) ∧
    (db.songsPlaylists.Nodup →
      (addSongsToPlaylist userId rawId (some songIds) db).2.songsPlaylists.Nodup) ∧
    addSongsToPlaylist userId rawId (some songIds)
        (addSongsToPlaylist userId rawId (some songIds) db).2
      = (200, (addSongsToPlaylist userId rawId (some songIds) db).2) := by
  have hlen : (findSongsByIds db ids).length = ids.length :=
    findSongsByIds_length db ids hsong hnodup hex
  have hrun := addSongsToPlaylist_success_run userId pid rawId db pl songIds ids
    hparse hpos hfind hauth hne hids hlen
  refine ⟨by rw [hrun], ?_, ?_, ?_⟩
  · intro r
    rw [hrun]
    show r ∈ insertManySkipDup (ids.map (fun sid => (sid, pid))) db.songsPlaylists ↔ _
    rw [mem_insertManySkipDup]
    simp only [List.mem_map]
    constructor
    · rintro (hr | ⟨i, hi, rfl⟩)
      · exact Or.inl hr
      · exact Or.inr ⟨i, hi, rfl⟩
    · rintro (hr | ⟨i, hi, rfl⟩)
      · exact Or.inl hr
      · exact Or.inr ⟨i, hi, rfl⟩
  · intro h
    rw [hrun]
    exact insertManySkipDup_nodup _ _ h
  · rw [hrun]
    have hrun2 := addSongsToPlaylist_success_run userId pid rawId
      { db with songsPlaylists :=
          insertManySkipDup (ids.map (fun sid => (sid, pid))) db.songsPlaylists }
      pl songIds ids hparse hpos hfind hauth hne hids hlen
    rw [hrun2]
    rw [show insertManySkipDup (ids.map (fun sid => (sid, pid)))
          (insertManySkipDup (ids.map (fun sid => (sid, pid))) db.songsPlaylists)
        = insertManySkipDup (ids.map (fun sid => (sid, pid))) db.songsPlaylists from
      insertManySkipDup_idem _ _]

theorem addSongsToPlaylist_idempotent_union_witness :
    (addSongsToPlaylist 5 "1" (some ["1", "2"]) songPlaylistDB).1 = 200 ∧
    ((2, 1) ∈ (addSongsToPlaylist 5 "1" (some ["1", "2"]) songPlaylistDB).2.songsPlaylists ∧
      (1, 1) ∈ (addSongsToPlaylist 5 "1" (some ["1", "2"]) songPlaylistDB).2.songsPlaylists) ∧
    (addSongsToPlaylist 5 "1" (some ["1", "2"]) songPlaylistDB).2.songsPlaylists.Nodup ∧
    addSongsToPlaylist 5 "1" (some ["1", "2"])
        (addSongsToPlaylist 5 "1" (some ["1", "2"]) songPlaylistDB).2
      = (200, (addSongsToPlaylist 5 "1" (some ["1", "2"]) songPlaylistDB).2) := by
  have h := addSongsToPlaylist_idempotent_union 5 1 "1" songPlaylistDB
    { id := 1, name := "mix", description := none, isPublic := true,
      coverImage := none, followerCount := 0, creatorId := 5 }
    ["1", "2"] [1, 2] (by decide) (by decide) (by decide) (by decide)
    (by decide) (by decide) (by decide) (by decide) (by decide)
  refine ⟨h.1, ⟨?_, ?_⟩, h.2.2.1 (by decide), h.2.2.2⟩
  · exact (h.2.1 (2, 1)).mpr (Or.inr ⟨2, by decide, rfl⟩)
  · exact (h.2.1 (1, 1)).mpr (Or.inl (by decide))

/-! ## addSongsToalbum (album.controller.ts lines 507-617) -/

/-- `addSongsToalbum`: admin gate (403), id parse (400), album lookup
(404), non-empty array (400), per-id parse (400), bulk existence (404),
artist-match check over all listed songs (400), then `updateMany` setting
`albumId` on every listed song. -/
def addSongsToalbum (isAdmin : Bool) (rawId : String) (body : Option (List String))
    (db : DB) : Nat × DB :=
  if !isAdmin then (403, db)
  else
    match jsParseInt rawId with
    | none => (400, db)
    | some aid =>
      if aid ≤ 0 then (400, db)
      else
        match findAlbum db aid with
        | none => (404, db)
        | some album =>
          match body with
          | none => (400, db)
          | some songIds =>
            if songIds.isEmpty then (400, db)
            else
              match parseSongIds songIds with
              | none => (400, db)
              | some ids =>
                if (findSongsByIds db ids).length ≠ ids.length then (404, db)
                else if 0 < ((findSongsByIds db ids).filter
                    (fun s => s.artistId ≠ album.artistId)).length then (400, db)
                else
                  (200, { db with songs := db.songs.map (fun s =>
                    if ids.contains s.id then { s with albumId := some aid } else s) })

/-- A store with one album (id 1 by artist 1) and two songs: song 1 by
artist 1 (no album) and song 2 by artist 2. -/
def albumDB : DB :=
  { users := [], playlists := [],
    albums := [{ id := 1, title := "al", artistId := 1, genre := none,
                 description := none, coverImage := none, isExplicit := false }],
    songs := [{ id := 1, title := "a", artistId := 1, albumId := none, duration := 10,
                genre := none, lyric := none, audioUrl := "u1", coverImage := none,
                isExplicit := false, playCount := 0, likeCount := 0 },
              { id := 2, title := "b", artistId := 2, albumId := none, duration := 20,
                genre := none, lyric := none, audioUrl := "u2", coverImage := none,
                isExplicit := false, playCount := 0, likeCount := 0 }],
    usersFollowPlaylist := [], usersCollaboratePlaylist := [],
    songsPlaylists := [], nextUserId := 1 }

/-- C3 counterexample: the claim quantifies over every non-empty list of
existing song ids, but listing an existing, artist-matching song twice
trips the deduplicating bulk existence check: the call answers 404 and no
song's `albumId` is set, where the claim requires every listed song's
`albumId` to become the album's id. -/
theorem addSongsToalbum_duplicate_ids_counterexample :
    (∀ i ∈ ["1", "1"], parsePositiveId i = some 1) ∧
    (∃ s ∈ albumDB.songs, s.id = 1 ∧ s.artistId = 1) ∧
    (∃ a ∈ albumDB.albums, a.id = 1 ∧ a.artistId = 1) ∧
    addSongsToalbum true "1" (some ["1", "1"]) albumDB = (404, albumDB) ∧
    (∀ s ∈ albumDB.songs, s.albumId = none) := by
  refine ⟨by decide, by decide, by decide, by decide, by decide⟩

/-- C3 amended: for a non-empty list of pairwise-distinct existing song ids
(store song ids unique), if at least one listed song's artist differs from
the album's artist the whole batch is rejected with 400 and the store — in
particular every song's `albumId` — is unchanged; if all artists match,
the call succeeds and exactly the listed songs get their `albumId` set to
the album's id, all other fields and rows untouched. -/
theorem addSongsToalbum_all_or_nothing
    (aid : Int) (rawId : String) (db : DB) (album : Album)
    (songIds : List String) (ids : List Int)
    (hparse : jsParseInt rawId = some aid) (hpos : 0 < aid)
    (hfind : findAlbum db aid = some album)
    (hne : songIds ≠ [])
    (hids : parseSongIds songIds = some ids)
    (hnodup : ids.Nodup)
    (hsong : (db.songs.map Song.id).Nodup)
    (hex : ∀ i ∈ ids, ∃ s ∈ db.songs, s.id = i) :
    ((∃ s ∈ findSongsByIds db ids, s.artistId ≠ album.artistId) →
      addSongsToalbum true rawId (some songIds) db = (400, db)) ∧
    ((∀ s ∈ findSongsByIds db ids, s.artistId = album.artistId) →
      addSongsToalbum true rawId (some songIds) db
        = (200, { db with songs := db.songs.map (fun s =>
            if ids.contains s.id then { s with albumId := some aid } else s) })) := by
  have hle : ¬ aid ≤ 0 := by omega
  have hlen : (findSongsByIds db ids).length = ids.length :=
    findSongsByIds_length db ids hsong hnodup hex
  constructor
  · intro hbad
    have hfilter : 0 < ((findSongsByIds db ids).filter
        (fun s => s.artistId ≠ album.artistId)).length := by
      rcases hbad with ⟨s, hs, hart⟩
      exact List.length_pos.mpr (List.ne_nil_of_mem
        (List.mem_filter.mpr ⟨hs, by simpa using hart⟩))
    simp only [addSongsToalbum, Bool.not_true, hparse, hfind, hne, hids, hlen]
    simp [hne, hlen, hfilter, hle]
    exact hbad
  · intro hgood
    have hfilter : ((findSongsByIds db ids).filter
        (fun s => s.artistId ≠ album.artistId)).length = 0 := by
      rw [List.length_eq_zero]
      rw [List.filter_eq_nil_iff]
      intro s hs
      simpa using hgood s hs
    simp only [addSongsToalbum, Bool.not_true, hparse, hfind, hne, hids, hlen]
    simp [hne, hlen, hfilter, hle]
    exact hgood

theorem addSongsToalbum_all_or_nothing_witness :
    addSongsToalbum true "1" (some ["1", "2"]) albumDB = (400, albumDB) ∧
    addSongsToalbum true "1" (some ["1"]) albumDB
      = (200, { albumDB with songs := albumDB.songs.map (fun s =>
          if [(1 : Int)].contains s.id then { s with albumId := some 1 } else s) }) := by
  constructor
  · exact (addSongsToalbum_all_or_nothing 1 "1" albumDB
      { id := 1, title := "al", artistId := 1, genre := none,
        description := none, coverImage := none, isExplicit := false }
      ["1", "2"] [1, 2] (by decide) (by decide) (by decide) (by decide)
      (by decide) (by decide) (by decide) (by decide)).1
      ⟨{ id := 2, title := "b", artistId := 2, albumId := none, duration := 20,
         genre := none, lyric := none, audioUrl := "u2", coverImage := none,
         isExplicit := false, playCount := 0, likeCount := 0 }, by decide, by decide⟩
  · exact (addSongsToalbum_all_or_nothing 1 "1" albumDB
      { id := 1, title := "al", artistId := 1, genre := none,
        description := none, coverImage := none, isExplicit := false }
      ["1"] [1] (by decide) (by decide) (by decide) (by decide)
      (by decide) (by decide) (by decide) (by decide)).2 (by decide)

/-! ## Partial updates of nullable fields -/

/-- The ternary `x && typeof x === "string" && x.trim() !== "" ? x.trim() :
null` shared by every nullable-string update branch. -/
def nullableStringData (v : JsValue) : Option String :=
  match v with
  | .str s => if !(s == "") && !(jsTrim s == "") then some (jsTrim s) else none
  | _ => none

/-- `genre` branch of `updateSongInfo` (song.controller.ts lines 506-512):
`none` means the field is left out of the prisma `data` object. -/
def songGenreUpdate (genre : JsValue) : Option (Option String) :=
  if genre == .undef then none else some (nullableStringData genre)

/-- `lyric` branch of `updateSongInfo` (song.controller.ts lines 514-520). -/
def songLyricUpdate (lyric : JsValue) : Option (Option String) :=
  if lyric == .undef then none else some (nullableStringData lyric)

/-- `description` branch of `updatePlaylist` (playlist.controller.ts lines
321-329). -/
def playlistDescriptionUpdate (description : JsValue) : Option (Option String) :=
  if description == .undef then none else some (nullableStringData description)

/-- `genre` branch of `updateAlbumInfo` (album.controller.ts lines 401-407). -/
def albumGenreUpdate (genre : JsValue) : Option (Option String) :=
  if genre == .undef then none else some (nullableStringData genre)

/-- `description` branch of `updateAlbumInfo` (album.controller.ts lines
409-417). -/
def albumDescriptionUpdate (description : JsValue) : Option (Option String) :=
  if description == .undef then none else some (nullableStringData description)

/-- `bio` branch of `validateUpdateArtist` (common DTO file, used by
`updateArtistInfo`). -/
def artistBioUpdate (bio : JsValue) : Option (Option String) :=
  if bio == .undef then none else some (nullableStringData bio)

/-- `String(x)` as applied before `parseInt` in the update handlers. -/
def jsToString : JsValue → String
  | .undef => "undefined"
  | .null => "null"
  | .str s => s
  | .bool b => if b then "true" else "false"
  | .num n => toString n

/-- `coverImage` URL branch shared by `updateSongInfo` (lines 555-565),
`updateAlbumInfo` (lines 452-462) and `updatePlaylist` (lines 362-372)
when no file is uploaded: `null` or `""` clears to null, a non-blank
string is trimmed and stored, anything else is a 400 (`error`). -/
def coverImageUpdate (v : JsValue) : Option (Except Unit (Option String)) :=
  if v == .undef then none
  else if v == .null || v == .str "" then some (Except.ok none)
  else
    match v with
    | .str s => if !(jsTrim s == "") then some (Except.ok (some (jsTrim s)))
        else some (Except.error ())
    | _ => some (Except.error ())

/-- `albumId` branch of `updateSongInfo` (song.controller.ts lines
474-485): `null` or `""` clears, otherwise `parseInt(String(albumId), 10)`
must be positive (else 400). -/
def songAlbumIdUpdate (v : JsValue) : Option (Except Unit (Option Int)) :=
  if v == .undef then none
  else if v == .null || v == .str "" then some (Except.ok none)
  else
    match jsParseInt (jsToString v) with
    | none => some (Except.error ())
    | some n => if n ≤ 0 then some (Except.error ()) else some (Except.ok (some n))

/-- `prisma.*.update({ data })` on one nullable column: a field absent from
`data` keeps the stored value, `null` clears it, a string replaces it. -/
def applyFieldUpdate (upd : Option (Option String)) (old : Option String) :
    Option String :=
  match upd with
  | none => old
  | some v => v

/-- `applyFieldUpdate` for a fallible `data` entry of any column type:
an error aborts the update (the stored value survives only vacuously, so
the claim constrains the `none` and `ok` shapes). -/
def applyFieldUpdateE (upd : Option (Except Unit (Option α))) (old : Option α) :
    Except Unit (Option α) :=
  match upd with
  | none => Except.ok old
  | some (Except.ok v) => Except.ok v
  | some (Except.error e) => Except.error e

/-- C4: for each partial-update operation's nullable field (song genre,
lyric, coverImage and albumId; playlist description; album genre and
description; artist bio), an omitted field leaves the stored value
unchanged and an empty-string field clears the stored value to null. -/
theorem nullable_update_omitted_keeps_empty_clears :
    ∀ old : Option String,
      (applyFieldUpdate (songGenreUpdate .undef) old = old ∧
        applyFieldUpdate (songGenreUpdate (.str "")) old = none) ∧
      (applyFieldUpdate (songLyricUpdate .undef) old = old ∧
        applyFieldUpdate (songLyricUpdate (.str "")) old = none) ∧
      (applyFieldUpdate (playlistDescriptionUpdate .undef) old = old ∧
        applyFieldUpdate (playlistDescriptionUpdate (.str "")) old = none) ∧
      (applyFieldUpdate (albumGenreUpdate .undef) old = old ∧
        applyFieldUpdate (albumGenreUpdate (.str "")) old = none) ∧
      (applyFieldUpdate (albumDescriptionUpdate .undef) old = old ∧
        applyFieldUpdate (albumDescriptionUpdate (.str "")) old = none) ∧
      (applyFieldUpdate (artistBioUpdate .undef) old = old ∧
        applyFieldUpdate (artistBioUpdate (.str "")) old = none) ∧
      (applyFieldUpdateE (coverImageUpdate .undef) old = Except.ok old ∧
        applyFieldUpdateE (coverImageUpdate (.str "")) old = Except.ok none) ∧
      (∀ oldId : Option Int,
        applyFieldUpdateE (songAlbumIdUpdate .undef) oldId = Except.ok oldId ∧
        applyFieldUpdateE (songAlbumIdUpdate (.str "")) oldId = Except.ok none) := by
  intro old
  exact ⟨⟨rfl, rfl⟩, ⟨rfl, rfl⟩, ⟨rfl, rfl⟩, ⟨rfl, rfl⟩, ⟨rfl, rfl⟩, ⟨rfl, rfl⟩,
    ⟨rfl, rfl⟩, fun oldId => ⟨rfl, rfl⟩⟩

/-! ## String-field validation (trim and quote-strip) -/

/-- `name` validation of `createPlaylist` (playlist.controller.ts lines
166-176): reject falsy/non-string/whitespace-only input, trim, strip one
leading and one trailing quote, reject when the cleaned name is empty,
store the cleaned name. -/
def createPlaylistName (name : JsValue) : Option String :=
  if !name.truthy then none
  else
    match name with
    | .str s =>
      if jsTrim s == "" then none
      else if stripQuotes (jsTrim s) == "" then none
      else some (stripQuotes (jsTrim s))
    | _ => none

/-- `title` validation of `createNewSong` (song.controller.ts lines
228-231; the stored value is `title.trim()`, line 369): no quote
stripping. -/
def createNewSongTitle (title : JsValue) : Option String :=
  if !title.truthy then none
  else
    match title with
    | .str s => if jsTrim s == "" then none else some (jsTrim s)
    | _ => none

/-- `validateString` (common DTO file, `part_008` lines 142-169). -/
def validateString (value : JsValue) (fieldName : String) (required : Bool) :
    Except String String :=
  match value with
  | .undef => if required then .error (fieldName ++ " is required")
      else .error (fieldName ++ " must be provided")
  | .null => if required then .error (fieldName ++ " is required")
      else .error (fieldName ++ " must be provided")
  | .str s =>
    if stripQuotes (jsTrim s) == "" then
      if required then .error (fieldName ++ " is required and must be a non-empty string")
      else .error (fieldName ++ " cannot be empty or just quotes")
    else .ok (stripQuotes (jsTrim s))
  | _ => .error (fieldName ++ " must be a string")

/-- The stored value and emptiness check the claim C8 prescribes for every
accepted string field: trim, then strip leading/trailing quotes. -/
def specCleanString (s : String) : String := stripQuotes (jsTrim s)

lemma stripQuotes_empty : stripQuotes "" = "" := rfl

/-- C8 counterexample: the song `title` field of `createNewSong` is only
trimmed — a title wrapped in double quotes is stored with its quotes, and
a title consisting of just two quote characters passes the emptiness check
even though its trimmed+quote-stripped form is empty.  Both contradict the
claim's "every string field". -/
theorem validator_quote_strip_counterexample :
    createNewSongTitle (JsValue.str (String.mk [dquote, 'a', dquote]))
      = some (String.mk [dquote, 'a', dquote]) ∧
    specCleanString (String.mk [dquote, 'a', dquote]) = "a" ∧
    String.mk [dquote, 'a', dquote] ≠ "a" ∧
    createNewSongTitle (JsValue.str (String.mk [dquote, dquote]))
      = some (String.mk [dquote, dquote]) ∧
    specCleanString (String.mk [dquote, dquote]) = "" := by
  refine ⟨by decide, by decide, by decide, by decide, by decide⟩

/-- C8 amended: the playlist `name` field and every field validated through
the shared `validateString` helper store the trimmed, quote-stripped input
with emptiness checked on that cleaned value; the other inline-validated
string fields (song title and the like) store the merely trimmed input with
emptiness checked on the trimmed value only. -/
theorem validator_trim_strip_amended :
    ∀ (s fieldName : String) (required : Bool),
      createPlaylistName (JsValue.str s)
        = (if stripQuotes (jsTrim s) = "" then none
           else some (stripQuotes (jsTrim s))) ∧
      (validateString (JsValue.str s) fieldName required).toOption
        = (if stripQuotes (jsTrim s) = "" then none
           else some (stripQuotes (jsTrim s))) ∧
      createNewSongTitle (JsValue.str s)
        = (if jsTrim s = "" then none else some (jsTrim s)) := by
  intro s fieldName required
  refine ⟨?_, ?_, ?_⟩
  · by_cases h0 : s = ""
    · subst h0
      rfl
    · by_cases h1 : jsTrim s = ""
      · have h2 : stripQuotes (jsTrim s) = "" := by rw [h1]; rfl
        simp [createPlaylistName, JsValue.truthy, h0, h1, h2, stripQuotes_empty]
      · by_cases h3 : stripQuotes (jsTrim s) = "" <;>
          simp [createPlaylistName, JsValue.truthy, h0, h1, h3]
  · by_cases h3 : stripQuotes (jsTrim s) = ""
    · cases required <;> simp [validateString, h3, Except.toOption]
    · simp [validateString, h3, Except.toOption]
  · by_cases h0 : s = ""
    · subst h0
      rfl
    · by_cases h1 : jsTrim s = "" <;>
        simp [createNewSongTitle, JsValue.truthy, h0, h1]

/-! ## User registration (user controller, lines 958-998 of the
concatenated playlist/user controller file) -/

/-- A registration request body.  `isAdmin` is whatever the client put in
the JSON payload (`undef` when absent); the TypeScript `RegisterBody`
interface does not even declare it, and the handler never reads it. -/
structure RegisterBody where
  email : String
  password : String
  username : Option String
  fullName : Option String
  isAdmin : JsValue
deriving DecidableEq, Repr

/-- `registerUser`: `validateBody` (non-empty email and password, trimmed
email of length ≥ 6 containing `@`), duplicate-email check (400), then
`prisma.user.create` with only `email`, hashed `password`, `username` and
`fullName` in `data` — `is_admin` takes its schema default `false`
(`part_000` line 11).  Returns status, the created row, and the store. -/
def registerUser (hash : String → String) (body : RegisterBody) (db : DB) :
    Nat × Option UserRow × DB :=
  if body.email == "" || jsTrim body.email == "" ||
      body.password == "" || jsTrim body.password == "" then (400, none, db)
  else if (jsTrim body.email).length < 6 then (400, none, db)
  else if !(body.email.data.contains '@') then (400, none, db)
  else
    match db.users.find? (fun u => u.email == body.email) with
    | some _ => (400, none, db)
    | none =>
      let u : UserRow := { id := db.nextUserId, email := body.email,
                           password := hash body.password, username := body.username,
                           fullName := body.fullName, isAdmin := false }
      (201, some u, { db with users := db.users ++ [u], nextUserId := db.nextUserId + 1 })

/-- C9: every user row created by `registerUser` has `isAdmin = false`, and
the request body's `isAdmin` value has no influence at all — two
registrations differing only in the supplied `isAdmin` return identical
results. -/
theorem registerUser_ignores_body_isAdmin :
    (∀ (hash : String → String) (body : RegisterBody) (db : DB) (u : UserRow),
      (registerUser hash body db).2.1 = some u → u.isAdmin = false) ∧
    (∀ (hash : String → String) (body : RegisterBody) (db : DB) (a b : JsValue),
      registerUser hash { body with isAdmin := a } db
        = registerUser hash { body with isAdmin := b } db) := by
  constructor
  · intro hash body db u h
    simp only [registerUser] at h
    split at h
    · simp at h
    · split at h
      · simp at h
      · split at h
        · simp at h
        · split at h
          · simp at h
          · simp only [Option.some_inj] at h
            subst h
            rfl
  · intro hash body db a b
    rfl

/-- The empty store a registration is run against. -/
def regDB : DB :=
  { users := [], songs := [], albums := [], playlists := [],
    usersFollowPlaylist := [], usersCollaboratePlaylist := [],
    songsPlaylists := [], nextUserId := 1 }

/-- A concrete registration body whose payload claims admin rights. -/
def regBody : RegisterBody :=
  { email := "a@bcde", password := "x", username := none, fullName := none,
    isAdmin := JsValue.bool true }

/-- The row `registerUser` creates for `regBody`. -/
def regUser0 : UserRow :=
  { id := 1, email := "a@bcde", password := "x", username := none,
    fullName := none, isAdmin := false }

theorem registerUser_ignores_body_isAdmin_witness :
    regUser0.isAdmin = false ∧
    registerUser (fun p => p) regBody regDB
      = registerUser (fun p => p) { regBody with isAdmin := JsValue.bool false } regDB :=
  ⟨registerUser_ignores_body_isAdmin.1 (fun p => p) regBody regDB regUser0 (by decide),
   registerUser_ignores_body_isAdmin.2 (fun p => p) regBody regDB
     (JsValue.bool true) (JsValue.bool false)⟩

end SpotifyClone
